import Mathlib

/-!
Verification of the ChainFront vault-plugin-xrp core against its
natural-language specification.

The Go sources are shallowly embedded:
* `validNumber`, `contains`, `validAccountConstraints` come from
  `xrp/utils.go` and the `createPayment` file (identical in the legacy
  `ripple` package copies).
* The transaction pipeline (`createPaymentTransaction`,
  `signPaymentTransaction`, `createPayment`, `pathAccountSet`,
  `pathCreateTrustline`, `pathReadAccount`) comes from the payment path
  file and `ripple/path_accounts.go` / `xrp/tx_sign.go`.
External collaborators (the rubblelabs ripple library's address / amount
parsers, the websocket ledger client, the ECDSA signer and the canonical
encoder) are modelled as an explicit environment `Env` of oracles, since
their internals are outside this repository; everything the repository
itself computes is translated faithfully, including the Go `big.Int`
parsing pulled in from go-ethereum's `math.MustParseBig256`.
-/

namespace VaultXrp

/-- Result of Go `validNumber` (`xrp/utils.go`): `ok n` models a non-nil
`*big.Int` with value `n`; `nilInt` models the `nil` pointer returned when
the input contains no decimal digit; `fatal` models the Go panic raised by
`math.MustParseBig256` on a digit-containing but unparsable input. -/
inductive NumResult where
  | ok (n : Int)
  | nilInt
  | fatal
  deriving DecidableEq, Repr

/-- Numeric value of an ASCII decimal digit character. -/
def digitVal (c : Char) : Nat := c.toNat - 48

/-- Numeric value of an ASCII hexadecimal digit character. -/
def hexDigitVal (c : Char) : Nat :=
  if c.isDigit then c.toNat - 48
  else if 'a' ≤ c ∧ c ≤ 'f' then c.toNat - 97 + 10
  else c.toNat - 65 + 10

/-- Hexadecimal digit test, as accepted by Go `big.Int.SetString` base 16. -/
def isHexDigitChar (c : Char) : Bool :=
  c.isDigit || ('a' ≤ c && c ≤ 'f') || ('A' ≤ c && c ≤ 'F')

/-- Decimal value of a digit list, most significant digit first. -/
def decToNat (ds : List Char) : Nat := ds.foldl (fun acc c => acc * 10 + digitVal c) 0

/-- Hexadecimal value of a digit list, most significant digit first. -/
def hexToNat (ds : List Char) : Nat := ds.foldl (fun acc c => acc * 16 + hexDigitVal c) 0

/-- A non-empty all-decimal-digit run, as required by `big.Int.SetString`
base 10 after the optional sign. -/
def decRun (ds : List Char) : Option Nat :=
  if !ds.isEmpty && ds.all Char.isDigit then some (decToNat ds) else none

/-- A non-empty all-hexadecimal-digit run, as required by
`big.Int.SetString` base 16 after the optional sign. -/
def hexRun (ds : List Char) : Option Nat :=
  if !ds.isEmpty && ds.all isHexDigitChar then some (hexToNat ds) else none

/-- Go `big.Int.SetString(s, 10)`: an optional `+`/`-` sign followed by a
non-empty run of decimal digits; the whole input must be consumed. -/
def setStringDec (cs : List Char) : Option Int :=
  match cs with
  | '+' :: rest => (decRun rest).map (fun n => (n : Int))
  | '-' :: rest => (decRun rest).map (fun n => -(n : Int))
  | _ => (decRun cs).map (fun n => (n : Int))

/-- Go `big.Int.SetString(s, 16)`: an optional sign followed by a
non-empty run of hexadecimal digits. -/
def setStringHex (cs : List Char) : Option Int :=
  match cs with
  | '+' :: rest => (hexRun rest).map (fun n => (n : Int))
  | '-' :: rest => (hexRun rest).map (fun n => -(n : Int))
  | _ => (hexRun cs).map (fun n => (n : Int))

/-- Whether the input carries go-ethereum's `0x` / `0X` hexadecimal
prefix, checked by `ParseBig256` before choosing the base. -/
def hexMarkedInput (cs : List Char) : Bool :=
  match cs with
  | c0 :: c1 :: _ => c0 = '0' && (c1 = 'x' || c1 = 'X')
  | _ => false

/-- go-ethereum `math.ParseBig256`: empty parses as zero, a `0x`/`0X`
prefix selects base 16, otherwise base 10; values of more than 256 bits
are rejected. `none` is the `ok=false` outcome on which
`MustParseBig256` panics. -/
def parseBig256 (cs : List Char) : Option Int :=
  if cs.isEmpty then some 0
  else
    let parsed := if hexMarkedInput cs then setStringHex (cs.drop 2) else setStringDec cs
    match parsed with
    | none => none
    | some n => if n.natAbs < 2 ^ 256 then some n else none

/-- `validNumber` from `xrp/utils.go`, over the character list of the
input: empty input yields `big.NewInt(0)`; an input with no decimal digit
anywhere (the `regexp.MatchString` over the pattern of one digit fails)
yields the `nil` pointer; otherwise `math.MustParseBig256` parses the
input (panicking on failure) and `Abs` replaces the value by its absolute
value. -/
def validNumberL (cs : List Char) : NumResult :=
  if cs.isEmpty then .ok 0
  else if !(cs.any Char.isDigit) then .nilInt
  else
    match parseBig256 cs with
    | some n => .ok (n.natAbs : Int)
    | none => .fatal

/-- `validNumber` on a Go string. -/
def validNumber (input : String) : NumResult := validNumberL input.data

/-- `String()` on the `*big.Int` returned by `validNumber`, as invoked at
`amount.String()` in `createPayment`: a `nil` big.Int prints the text
`<nil>`; the fatal case never reaches a caller. -/
def numString : NumResult → String
  | .ok n => toString n
  | .nilInt => "<nil>"
  | .fatal => "<nil>"

/-- The `Account` struct of `path_accounts.go`: the JSON object held in
vault storage for one custodied ledger identity. -/
structure Account where
  accountId : String
  publicKey : String
  privateKey : String
  secret : String
  txSpendLimit : String
  whitelist : List String
  blacklist : List String
  deriving DecidableEq, Repr

/-- `contains` from `xrp/utils.go`: linear membership scan. -/
def contains : List String → String → Bool
  | [], _ => false
  | value :: rest, searchString =>
    if value = searchString then true else contains rest searchString

/-- The reason carried by a denial of `validAccountConstraints`. -/
inductive Reason where
  | spendLimit
  | blacklisted
  | notWhitelisted
  deriving DecidableEq, Repr

/-- Outcome of `validAccountConstraints`: `ok` is the `(true, nil)` return,
`err r` the `(false, error)` return with the given reason, and `fatal`
models a Go panic (a `nil` spend-limit big.Int dereferenced by `Cmp`, or a
panic inside `validNumber`). -/
inductive ConstraintResult where
  | ok
  | err (r : Reason)
  | fatal
  deriving DecidableEq, Repr

/-- `validAccountConstraints` from the payments path file: parse the
account's transactional spend limit, then test the three policy rules in
order (spend limit, blacklist, whitelist), returning on the first failing
rule. -/
def validAccountConstraints (account : Account) (amount : Int) (toAddress : String) : ConstraintResult :=
  match validNumber account.txSpendLimit with
  | .nilInt => .fatal
  | .fatal => .fatal
  | .ok txLimit =>
    if txLimit < amount ∧ 0 < txLimit then .err .spendLimit
    else if contains account.blacklist toAddress then .err .blacklisted
    else if 0 < account.whitelist.length ∧ contains account.whitelist toAddress = false then
      .err .notWhitelisted
    else .ok

/-- The external collaborators of the pipeline, modelled as oracles:
`parseAddressOk` is success of `data.NewAccountFromAddress`,
`parseAmountOk` success of `data.NewAmount` on the full amount text,
`secretOk` success of `crypto.NewRippleHashCheck` on an account secret,
`fetchSequence` the `AccountInfo` ledger round trip (with `none` covering
`websockets.NewRemote` or `AccountInfo` failure), `signOk` success of
`data.Sign`, and `encodeOk` success of `data.Raw`.  The error of
`crypto.NewECDSAKey` is not modelled because the Go code discards it. -/
structure Env where
  parseAddressOk : String → Bool
  parseAmountOk : String → Bool
  secretOk : String → Bool
  fetchSequence : String → Option Nat
  signOk : Bool
  encodeOk : Bool

/-- `strings.EqualFold` restricted to the comparisons the plugin makes
(case-insensitive equality of the asset code with the word native). -/
def eqFold (a b : String) : Bool := a.data.map Char.toLower == b.data.map Char.toLower

/-- The fields of `data.Payment` that the plugin sets or reads: the base
account, destination, the amount text handed to `data.NewAmount`, the fee
in drops, the sequence, whether `data.Sign` has populated the signature,
and the key sequence used for signing. -/
structure Payment where
  account : String
  destination : String
  amount : String
  fee : Int
  sequence : Nat
  signed : Bool
  keySequence : Nat
  deriving DecidableEq, Repr

/-- `createPaymentTransaction` from the payments path file: parse the two
addresses, build the amount text (`amount/XRP` for the native asset,
`amount/assetCode/assetIssuer` otherwise), and return an unsigned payment
whose fee is the fixed `data.NewNativeValue(int64(10))`. -/
def createPaymentTransaction (env : Env) (sourceAddress destinationAddress amount assetCode assetIssuer : String) : Option Payment :=
  if !(env.parseAddressOk sourceAddress) then none
  else if !(env.parseAddressOk destinationAddress) then none
  else if eqFold assetCode "native" then
    if !(env.parseAmountOk (amount ++ "/XRP")) then none
    else some { account := sourceAddress, destination := destinationAddress,
                amount := amount ++ "/XRP", fee := 10, sequence := 0,
                signed := false, keySequence := 0 }
  else
    if !(env.parseAmountOk (amount ++ "/" ++ assetCode ++ "/" ++ assetIssuer)) then none
    else some { account := sourceAddress, destination := destinationAddress,
                amount := amount ++ "/" ++ assetCode ++ "/" ++ assetIssuer, fee := 10,
                sequence := 0, signed := false, keySequence := 0 }

/-- `signPaymentTransaction` from `xrp/tx_sign.go`: check the account
secret, parse the account address, fetch the current ledger sequence over
the websocket client, assign it to the transaction unchanged, and sign
with key sequence zero. -/
def signPaymentTransaction (env : Env) (account : Account) (paymentTx : Payment) : Option Payment :=
  if !(env.secretOk account.secret) then none
  else if !(env.parseAddressOk account.accountId) then none
  else
    match env.fetchSequence account.accountId with
    | none => none
    | some sequence =>
      if !env.signOk then none
      else some { paymentTx with sequence := sequence, signed := true, keySequence := 0 }

/-- The map returned by `createPayment` on success: source address,
assigned account sequence, fee, and the signed transaction (standing for
both the transaction hash and the hex blob, which are computed from it by
the external encoder). -/
structure PaymentResponse where
  sourceAddress : String
  accountSequence : Nat
  fee : Int
  signedTransaction : Payment
  deriving DecidableEq, Repr

/-- Outcome of the `createPayment` operation.  `errMissingField` is the
`errMissingField` response; `errSourceNotFound` / `errDestinationNotFound`
are the coded 400 account-lookup failures; `errBuild`, `errSign` and
`errEncode` are errors escaping `createPaymentTransaction`,
`signPaymentTransaction` and `data.Raw`; `fatal` is a Go panic. -/
inductive PaymentResult where
  | errMissingField (field : String)
  | errSourceNotFound
  | errDestinationNotFound
  | errBuild
  | errSign
  | errEncode
  | fatal
  | success (resp : PaymentResponse)
  deriving DecidableEq, Repr

/-- `createPayment` from the payments path file (the `xrp` package
variant, whose required-field list includes the asset code), with vault
storage modelled as a lookup function.  The request has already passed
`validateFields`, which only rejects unknown request keys.  Note the
amount is parsed by `validNumber` right after its emptiness check and the
result — including a `nil` big.Int printed as `<nil>` — flows into
`createPaymentTransaction`; `validAccountConstraints` is never invoked. -/
def createPayment (env : Env) (storage : String → Option Account)
    (source destination amountStr assetCode assetIssuer : String) : PaymentResult :=
  if source = "" then .errMissingField "source"
  else if destination = "" then .errMissingField "destination"
  else if amountStr = "" then .errMissingField "amount"
  else
    match validNumber amountStr with
    | .fatal => .fatal
    | amount =>
      if assetCode = "" then .errMissingField "assetCode"
      else if assetIssuer = "" ∧ eqFold assetCode "native" = false then .errMissingField "assetIssuer"
      else
        match storage ("accounts/" ++ source) with
        | none => .errSourceNotFound
        | some sourceAccount =>
          match storage ("accounts/" ++ destination) with
          | none => .errDestinationNotFound
          | some destinationAccount =>
            match createPaymentTransaction env sourceAccount.accountId destinationAccount.accountId
                (numString amount) assetCode assetIssuer with
            | none => .errBuild
            | some payment =>
              match signPaymentTransaction env sourceAccount payment with
              | none => .errSign
              | some signedPayment =>
                if !env.encodeOk then .errEncode
                else .success { sourceAddress := signedPayment.account,
                                accountSequence := signedPayment.sequence,
                                fee := signedPayment.fee,
                                signedTransaction := signedPayment }

/-- The fields of `data.AccountSet` that the plugin sets. -/
structure AccountSet where
  account : String
  setFlag : Option Nat
  clearFlag : Option Nat
  domain : Option String
  fee : Int
  sequence : Nat
  signed : Bool
  keySequence : Nat
  deriving DecidableEq, Repr

/-- The fields of `data.TrustSet` that the plugin sets: the compound limit
amount text handed to `data.NewAmount` plus the common base fields. -/
structure TrustSet where
  account : String
  limitAmount : String
  fee : Int
  sequence : Nat
  signed : Bool
  keySequence : Nat
  deriving DecidableEq, Repr

/-- Success payload shared by `pathAccountSet` and `pathCreateTrustline`. -/
structure TxResponse (T : Type) where
  sourceAddress : String
  accountSequence : Nat
  fee : Int
  signedTransaction : T
  deriving DecidableEq, Repr

/-- Outcome of the account-settings and trust-line operations. -/
inductive TxResult (T : Type) where
  | errMissingField (field : String)
  | errSourceNotFound
  | errAddress
  | errFlag (field : String)
  | errInvalidCurrency
  | errSign
  | errEncode
  | success (resp : TxResponse T)
  deriving DecidableEq, Repr

/-- Go `strconv.ParseUint(s, 10, 32)`: a non-empty unsigned run of decimal
digits whose value fits in 32 bits; no sign is accepted. -/
def parseUint32 (s : String) : Option Nat :=
  if s.data.isEmpty then none
  else if s.data.all Char.isDigit then
    let n := decToNat s.data
    if n < 2 ^ 32 then some n else none
  else none

/-- An optional flag field of `pathAccountSet`: empty means absent,
otherwise it must parse as a 32-bit unsigned decimal. -/
def parseFlagField (s : String) : Option (Option Nat) :=
  if s = "" then some none
  else
    match parseUint32 s with
    | none => none
    | some n => some (some n)

/-- `signAccountSetTransaction` from the transaction-signing file: the
same fetch-sequence-then-sign step as for payments. -/
def signAccountSetTransaction (env : Env) (account : Account) (tx : AccountSet) : Option AccountSet :=
  if !(env.secretOk account.secret) then none
  else if !(env.parseAddressOk account.accountId) then none
  else
    match env.fetchSequence account.accountId with
    | none => none
    | some sequence =>
      if !env.signOk then none
      else some { tx with sequence := sequence, signed := true, keySequence := 0 }

/-- `signTrustSetTransaction` from the transaction-signing file. -/
def signTrustSetTransaction (env : Env) (account : Account) (tx : TrustSet) : Option TrustSet :=
  if !(env.secretOk account.secret) then none
  else if !(env.parseAddressOk account.accountId) then none
  else
    match env.fetchSequence account.accountId with
    | none => none
    | some sequence =>
      if !env.signOk then none
      else some { tx with sequence := sequence, signed := true, keySequence := 0 }

/-- `pathAccountSet` from `path_accounts.go`: look up the source account,
parse its address, build an account-settings transaction with the fixed
fee of 10 drops, parse the optional set/clear flags and domain, then sign
and encode. -/
def pathAccountSet (env : Env) (storage : String → Option Account)
    (name setFlagStr clearFlagStr domainStr : String) : TxResult AccountSet :=
  match storage ("accounts/" ++ name) with
  | none => .errSourceNotFound
  | some sourceAccount =>
    if !(env.parseAddressOk sourceAccount.accountId) then .errAddress
    else
      match parseFlagField setFlagStr with
      | none => .errFlag "set_flag"
      | some setFlag =>
        match parseFlagField clearFlagStr with
        | none => .errFlag "clear_flag"
        | some clearFlag =>
          let domain := if domainStr = "" then none else some domainStr
          let tx : AccountSet := { account := sourceAccount.accountId, setFlag := setFlag,
                                   clearFlag := clearFlag, domain := domain, fee := 10,
                                   sequence := 0, signed := false, keySequence := 0 }
          match signAccountSetTransaction env sourceAccount tx with
          | none => .errSign
          | some signedTx =>
            if !env.encodeOk then .errEncode
            else .success { sourceAddress := signedTx.account,
                            accountSequence := signedTx.sequence,
                            fee := signedTx.fee,
                            signedTransaction := signedTx }

/-- `pathCreateTrustline` from `path_accounts.go`: reject empty
currencyCode, issuer or limit with a missing-field response, look up the
source account, parse its address, build the compound limit amount
(rejecting with the coded invalid-currency error when `data.NewAmount`
fails), build the trust-line transaction with the fixed fee of 10 drops,
then sign and encode. -/
def pathCreateTrustline (env : Env) (storage : String → Option Account)
    (name currencyCode issuer limit : String) : TxResult TrustSet :=
  if currencyCode = "" then .errMissingField "currencyCode"
  else if issuer = "" then .errMissingField "issuer"
  else if limit = "" then .errMissingField "limit"
  else
    match storage ("accounts/" ++ name) with
    | none => .errSourceNotFound
    | some sourceAccount =>
      if !(env.parseAddressOk sourceAccount.accountId) then .errAddress
      else if !(env.parseAmountOk (limit ++ "/" ++ currencyCode ++ "/" ++ issuer)) then .errInvalidCurrency
      else
        let tx : TrustSet := { account := sourceAccount.accountId,
                               limitAmount := limit ++ "/" ++ currencyCode ++ "/" ++ issuer,
                               fee := 10, sequence := 0, signed := false, keySequence := 0 }
        match signTrustSetTransaction env sourceAccount tx with
        | none => .errSign
        | some signedTx =>
          if !env.encodeOk then .errEncode
          else .success { sourceAddress := signedTx.account,
                          accountSequence := signedTx.sequence,
                          fee := signedTx.fee,
                          signedTransaction := signedTx }

/-- A value in the response map of `pathReadAccount`: a string field or a
string-list field. -/
inductive FieldValue where
  | str (s : String)
  | strList (l : List String)
  deriving DecidableEq, Repr

/-- `pathReadAccount` from `path_accounts.go`: a missing account yields
the nil response; otherwise the response map holds exactly the account id,
public key, spend limit, whitelist and blacklist, in that insertion
order. -/
def pathReadAccount (storage : String → Option Account) (path : String) :
    Option (List (String × FieldValue)) :=
  match storage path with
  | none => none
  | some a =>
    some [("accountId", .str a.accountId), ("publicKey", .str a.publicKey),
          ("txSpendLimit", .str a.txSpendLimit), ("whitelist", .strList a.whitelist),
          ("blacklist", .strList a.blacklist)]

/-- A healthy environment: every address, amount and secret is accepted,
the ledger reports sequence 7 for every account, and signing and encoding
succeed. -/
def envW : Env :=
  { parseAddressOk := fun _ => true, parseAmountOk := fun _ => true,
    secretOk := fun _ => true, fetchSequence := fun _ => some 7,
    signOk := true, encodeOk := true }

/-- A source account stored under the name src, with the transactional
spend limit 1000 used by the repository's own test suite. -/
def srcAcct : Account :=
  { accountId := "rSRC", publicKey := "PUBSRC", privateKey := "PRVSRC",
    secret := "sSRC", txSpendLimit := "1000", whitelist := [], blacklist := [] }

/-- A destination account stored under the name dst. -/
def dstAcct : Account :=
  { accountId := "rDST", publicKey := "PUBDST", privateKey := "PRVDST",
    secret := "sDST", txSpendLimit := "1000", whitelist := [], blacklist := [] }

/-- Vault storage holding the two test accounts. -/
def storageW : String → Option Account := fun path =>
  if path = "accounts/src" then some srcAcct
  else if path = "accounts/dst" then some dstAcct
  else none

/-- The signed payment produced in the healthy environment for amount
1001. -/
def signed1001 : Payment :=
  { account := "rSRC", destination := "rDST", amount := "1001/XRP",
    fee := 10, sequence := 7, signed := true, keySequence := 0 }

/-- Reduction of `validAccountConstraints` once the spend limit parses. -/
theorem validAccountConstraints_eq_of_limit (a : Account) (L amount : Int) (toAddress : String)
    (hL : validNumber a.txSpendLimit = .ok L) :
    validAccountConstraints a amount toAddress =
      (if L < amount ∧ 0 < L then .err .spendLimit
       else if contains a.blacklist toAddress then .err .blacklisted
       else if 0 < a.whitelist.length ∧ contains a.whitelist toAddress = false then
         .err .notWhitelisted
       else .ok) := by
  unfold validAccountConstraints
  rw [hL]

/-- C2: the policy check denies with the spend-limit reason exactly when
the parsed spend limit is positive and the amount strictly exceeds it; an
amount equal to a positive limit is allowed, and a zero limit allows every
amount (for an account with no blacklist and whitelist entries). -/
theorem spendLimit_denial_iff (a : Account) (amount L : Int) (toAddress : String)
    (hL : validNumber a.txSpendLimit = .ok L) (hnn : 0 ≤ amount) :
    (validAccountConstraints a amount toAddress = .err .spendLimit ↔ 0 < L ∧ L < amount)
    ∧ (0 < L → amount = L → a.blacklist = [] → a.whitelist = [] →
        validAccountConstraints a amount toAddress = .ok)
    ∧ (L = 0 → a.blacklist = [] → a.whitelist = [] →
        validAccountConstraints a amount toAddress = .ok) := by
  rw [validAccountConstraints_eq_of_limit a L amount toAddress hL]
  refine ⟨?_, ?_, ?_⟩
  · by_cases h : L < amount ∧ 0 < L
    · rw [if_pos h]
      simp [h.1, h.2]
    · have h' : ¬ (0 < L ∧ L < amount) := fun hc => h ⟨hc.2, hc.1⟩
      rw [if_neg h]
      simp only [h', iff_false]
      split_ifs <;> simp
  · intro hpos heq hbl hwl
    subst heq
    rw [if_neg (by simp [lt_irrefl]), hbl, hwl]
    simp [contains]
  · intro hzero hbl hwl
    subst hzero
    rw [if_neg (by simp), hbl, hwl]
    simp [contains]

/-- C2 witness: the account with spend limit 1000 at the boundary amount
1000 and above it at 1001. -/
theorem spendLimit_denial_iff_check :
    ((validAccountConstraints srcAcct 1000 "rDST" = .err .spendLimit ↔
        0 < (1000 : Int) ∧ (1000 : Int) < 1000)
      ∧ (0 < (1000 : Int) → (1000 : Int) = 1000 → srcAcct.blacklist = [] →
          srcAcct.whitelist = [] → validAccountConstraints srcAcct 1000 "rDST" = .ok))
    ∧ (validAccountConstraints srcAcct 1001 "rDST" = .err .spendLimit ↔
        0 < (1000 : Int) ∧ (1000 : Int) < 1001) := by
  refine ⟨⟨?_, ?_⟩, ?_⟩
  · exact (spendLimit_denial_iff srcAcct 1000 1000 "rDST" (by decide) (by decide)).1
  · exact (spendLimit_denial_iff srcAcct 1000 1000 "rDST" (by decide) (by decide)).2.1
  · exact (spendLimit_denial_iff srcAcct 1001 1000 "rDST" (by decide) (by decide)).1

/-- An account with spend limit 10 whose blacklist holds rX. -/
def accBlk : Account :=
  { accountId := "rBLK", publicKey := "PUBB", privateKey := "PRVB",
    secret := "sB", txSpendLimit := "10", whitelist := [], blacklist := ["rX"] }

/-- An account with spend limit 1000 whose whitelist holds rY. -/
def accWl : Account :=
  { accountId := "rWL", publicKey := "PUBW", privateKey := "PRVW",
    secret := "sW", txSpendLimit := "1000", whitelist := ["rY"], blacklist := [] }

/-- C3 counterexample: for the account with spend limit 10 and blacklist
rX, a transfer of 20 to rX is denied with the spend-limit reason — the
blacklisted reason is not reported, because the spend-limit rule fires
first. -/
theorem blacklist_reason_shadowed :
    validAccountConstraints accBlk 20 "rX" = .err .spendLimit ∧
    validAccountConstraints accBlk 20 "rX" ≠ .err .blacklisted := by decide

/-- C3 (amended): a blacklisted counterparty is denied for every amount,
including zero; the reported reason is the blacklisted one whenever the
spend-limit rule does not fire first. -/
theorem blacklisted_denied_every_amount (a : Account) (amount L : Int) (toAddress : String)
    (hL : validNumber a.txSpendLimit = .ok L)
    (hb : contains a.blacklist toAddress = true) :
    validAccountConstraints a amount toAddress ≠ .ok
    ∧ (¬ (0 < L ∧ L < amount) →
        validAccountConstraints a amount toAddress = .err .blacklisted) := by
  rw [validAccountConstraints_eq_of_limit a L amount toAddress hL]
  constructor
  · split_ifs with h1 h2 h3 <;> simp_all
  · intro hno
    have h1 : ¬ (L < amount ∧ 0 < L) := fun hc => hno ⟨hc.2, hc.1⟩
    rw [if_neg h1, if_pos hb]

/-- C3 witness: the blacklisted counterparty rX is denied at amount 0 with
the blacklisted reason. -/
theorem blacklisted_denied_every_amount_check :
    validAccountConstraints accBlk 0 "rX" ≠ .ok
    ∧ (¬ (0 < (10 : Int) ∧ (10 : Int) < 0) →
        validAccountConstraints accBlk 0 "rX" = .err .blacklisted) :=
  blacklisted_denied_every_amount accBlk 0 10 "rX" (by decide) (by decide)

/-- C4: with a non-empty whitelist a counterparty outside it is denied,
and a whitelisted, non-blacklisted counterparty whose amount is within the
spend limit is allowed. -/
theorem whitelist_rules (a : Account) (amount L : Int) (toAddress : String)
    (hL : validNumber a.txSpendLimit = .ok L) :
    (a.whitelist ≠ [] → contains a.whitelist toAddress = false →
      validAccountConstraints a amount toAddress ≠ .ok)
    ∧ (contains a.whitelist toAddress = true → contains a.blacklist toAddress = false →
        (L = 0 ∨ amount ≤ L) → validAccountConstraints a amount toAddress = .ok) := by
  rw [validAccountConstraints_eq_of_limit a L amount toAddress hL]
  constructor
  · intro hne hnc
    have hlen : 0 < a.whitelist.length := by
      cases h : a.whitelist with
      | nil => exact absurd h hne
      | cons x xs => simp [h]
    split_ifs with h1 h2 h3 <;> simp_all
  · intro hc hnb hlim
    have h1 : ¬ (L < amount ∧ 0 < L) := by
      rcases hlim with h | h
      · rintro ⟨_, hpos⟩; omega
      · rintro ⟨hlt, _⟩; omega
    rw [if_neg h1]
    rw [hnb, hc]
    simp

/-- C4 witness: for the account whitelisting rY, the counterparty rZ is
denied and rY is allowed at amount 1. -/
theorem whitelist_rules_check :
    validAccountConstraints accWl 1 "rZ" ≠ .ok
    ∧ validAccountConstraints accWl 1 "rY" = .ok := by
  constructor
  · exact (whitelist_rules accWl 1 1000 "rZ" (by decide)).1 (by decide) (by decide)
  · exact (whitelist_rules accWl 1 1000 "rY" (by decide)).2 (by decide) (by decide) (by decide)

/-- C1: a payment of 1001 from the account with spend limit 1000 is NOT
rejected — `createPayment` invokes no policy check, fetches the ledger
sequence and returns the signed transaction, while the repository's own
`validAccountConstraints` (never called from any source file) would have
denied this very transfer with the spend-limit reason. -/
theorem createPayment_above_limit_signs :
    createPayment envW storageW "src" "dst" "1001" "native" "" =
      .success { sourceAddress := "rSRC", accountSequence := 7, fee := 10,
                 signedTransaction := signed1001 }
    ∧ signed1001.signed = true
    ∧ validAccountConstraints srcAcct 1001 "rDST" = .err .spendLimit := by decide

/-- The signed payment produced for the amount text -1: the positive
magnitude 1 is transferred. -/
def signedNeg1 : Payment :=
  { account := "rSRC", destination := "rDST", amount := "1/XRP",
    fee := 10, sequence := 7, signed := true, keySequence := 0 }

/-- C5 counterexample: the negative amount string -1 is not rejected by
the transaction-building layer — `validNumber` yields the absolute value
1 and the pipeline returns a signed payment of 1. -/
theorem negative_amount_not_rejected :
    validNumber "-1" = .ok 1
    ∧ createPayment envW storageW "src" "dst" "-1" "native" "" =
        .success { sourceAddress := "rSRC", accountSequence := 7, fee := 10,
                   signedTransaction := signedNeg1 } := by decide

/-- A non-empty string differs from the empty string exactly on its
character list. -/
theorem data_ne_nil_of_ne_empty (s : String) (h : s ≠ "") : s.data ≠ [] := by
  intro hd
  apply h
  cases s with
  | mk data =>
    rw [show (String.mk data).data = data from rfl] at hd
    rw [hd]

/-- A digit-free non-empty string makes `validNumber` return the nil
big.Int. -/
theorem validNumber_eq_nilInt (s : String) (h1 : s ≠ "")
    (h2 : ∀ c ∈ s.data, c.isDigit = false) : validNumber s = .nilInt := by
  have hne : s.data ≠ [] := data_ne_nil_of_ne_empty s h1
  have hany : s.data.any Char.isDigit = false := by
    rw [List.any_eq_false]
    intro c hc
    simp [h2 c hc]
  unfold validNumber validNumberL
  simp [List.isEmpty_iff, hne, hany]

/-- C5 (amended): an amount string containing no decimal digit is
rejected before any signing occurs (`validNumber` returns a nil big.Int
whose textual form fails amount construction at the build step), so no
signed transaction appears in the response; a negative numeric amount
string, by contrast, is not rejected at all — it proceeds with its
absolute value (see the counterexample and C6). -/
theorem digitless_amount_never_signed (env : Env) (storage : String → Option Account)
    (source destination assetCode assetIssuer amountStr : String) (r : PaymentResponse)
    (h1 : amountStr ≠ "")
    (h2 : ∀ c ∈ amountStr.data, c.isDigit = false)
    (h3 : env.parseAmountOk "<nil>/XRP" = false)
    (h4 : env.parseAmountOk ("<nil>/" ++ assetCode ++ "/" ++ assetIssuer) = false) :
    createPayment env storage source destination amountStr assetCode assetIssuer ≠ .success r
    ∧ createPayment env storage source destination amountStr assetCode assetIssuer ≠ .errSign := by
  have hnil : validNumber amountStr = .nilInt := validNumber_eq_nilInt amountStr h1 h2
  have hbuild : ∀ saddr daddr : String,
      createPaymentTransaction env saddr daddr (numString NumResult.nilInt) assetCode assetIssuer = none := by
    intro saddr daddr
    unfold createPaymentTransaction
    by_cases ha1 : env.parseAddressOk saddr
    · by_cases ha2 : env.parseAddressOk daddr
      · by_cases hf : eqFold assetCode "native" = true
        · simp [ha1, ha2, hf, numString, h3]
        · simp [ha1, ha2, hf, numString, h4]
      · simp [ha1, ha2]
    · simp [ha1]
  refine ⟨fun hc => ?_, fun hc => ?_⟩ <;>
  · rw [createPayment.eq_def] at hc
    rw [hnil] at hc
    repeat' split at hc
    all_goals simp_all [hbuild]

/-- An environment whose amount parser rejects every amount text. -/
def envNoAmount : Env :=
  { parseAddressOk := fun _ => true, parseAmountOk := fun _ => false,
    secretOk := fun _ => true, fetchSequence := fun _ => some 7,
    signOk := true, encodeOk := true }

/-- C5 witness: the digit-free amount abc is rejected before signing. -/
theorem digitless_amount_never_signed_check :
    createPayment envNoAmount storageW "src" "dst" "abc" "native" "" ≠
      .success { sourceAddress := "rSRC", accountSequence := 7, fee := 10,
                 signedTransaction := signed1001 }
    ∧ createPayment envNoAmount storageW "src" "dst" "abc" "native" "" ≠ .errSign :=
  digitless_amount_never_signed envNoAmount storageW "src" "dst" "native" "" "abc"
    { sourceAddress := "rSRC", accountSequence := 7, fee := 10,
      signedTransaction := signed1001 }
    (by decide) (by decide) rfl rfl

/-- A negative amount text of magnitude 2 * 10 ^ 77, which takes more
than 256 bits. -/
def hugeNegAmount : String := String.mk ('-' :: '2' :: List.replicate 77 '0')

set_option maxRecDepth 4000 in
/-- C6 counterexample: on a minus sign followed by digits of 257-bit
magnitude, `MustParseBig256` panics, so `validNumber` does not return the
absolute value and the payment is not built or signed. -/
theorem validNumber_overflow_no_abs :
    validNumber hugeNegAmount = .fatal
    ∧ validNumber hugeNegAmount ≠ .ok ((2 * 10 ^ 77 : Nat) : Int)
    ∧ createPayment envW storageW "src" "dst" hugeNegAmount "native" "" = .fatal := by decide

/-- `validNumberL` on a minus sign followed by decimal digits of a value
below 2 ^ 256: the parse succeeds and `Abs` drops the sign. -/
theorem validNumberL_neg_digits (c : Char) (tl : List Char)
    (hdig : ∀ x ∈ c :: tl, x.isDigit = true)
    (hsz : decToNat (c :: tl) < 2 ^ 256) :
    validNumberL ('-' :: c :: tl) = .ok ((decToNat (c :: tl) : Nat) : Int) := by
  have hcdig : c.isDigit = true := hdig c (by simp)
  have hall : (c :: tl).all Char.isDigit = true := List.all_eq_true.mpr hdig
  have hdec : decRun (c :: tl) = some (decToNat (c :: tl)) := by
    unfold decRun
    simp [hall]
  have hset : setStringDec ('-' :: c :: tl) = some (-(decToNat (c :: tl) : Int)) := by
    simp [setStringDec, hdec]
  have hpfx : hexMarkedInput ('-' :: c :: tl) = false := by
    simp [hexMarkedInput]
  have hparse : parseBig256 ('-' :: c :: tl) = some (-(decToNat (c :: tl) : Int)) := by
    unfold parseBig256
    simp [hpfx, hset, Int.natAbs_neg, Int.natAbs_ofNat]
    simpa using hsz
  unfold validNumberL
  simp [hparse, hcdig, Int.natAbs_neg, Int.natAbs_ofNat]

/-- C6: for every input of a minus sign followed by decimal digits (of
magnitude below 2 ^ 256 — larger magnitudes panic, see the
counterexample), `validNumber` returns the absolute value of the parsed
integer, and in the healthy test environment the payment is built and
signed with the positive magnitude rather than rejected. -/
theorem validNumber_negative_abs (ds : List Char)
    (hne : ds ≠ []) (hdig : ∀ c ∈ ds, c.isDigit = true)
    (hsz : decToNat ds < 2 ^ 256) :
    validNumber (String.mk ('-' :: ds)) = .ok ((decToNat ds : Nat) : Int)
    ∧ createPayment envW storageW "src" "dst" (String.mk ('-' :: ds)) "native" "" =
        .success { sourceAddress := "rSRC", accountSequence := 7, fee := 10,
                   signedTransaction :=
                     { account := "rSRC", destination := "rDST",
                       amount := toString ((decToNat ds : Nat) : Int) ++ "/XRP",
                       fee := 10, sequence := 7, signed := true, keySequence := 0 } } := by
  have hv : validNumber (String.mk ('-' :: ds)) = .ok ((decToNat ds : Nat) : Int) := by
    rcases ds with _ | ⟨c, tl⟩
    · exact absurd rfl hne
    · exact validNumberL_neg_digits c tl hdig hsz
  have hnemp : String.mk ('-' :: ds) ≠ "" := by
    intro h
    have h2 : '-' :: ds = [] := congrArg String.data h
    cases h2
  refine ⟨hv, ?_⟩
  rw [createPayment.eq_def]
  rw [hv]
  have hef : eqFold "native" "native" = true := by decide
  simp [hnemp, storageW, srcAcct, dstAcct, envW, createPaymentTransaction,
        signPaymentTransaction, numString, hef]

/-- C6 witness: the amount text -35 becomes a signed payment of 35. -/
theorem validNumber_negative_abs_check :
    validNumber (String.mk ['-', '3', '5']) = .ok ((decToNat ['3', '5'] : Nat) : Int)
    ∧ createPayment envW storageW "src" "dst" (String.mk ['-', '3', '5']) "native" "" =
        .success { sourceAddress := "rSRC", accountSequence := 7, fee := 10,
                   signedTransaction :=
                     { account := "rSRC", destination := "rDST",
                       amount := toString ((decToNat ['3', '5'] : Nat) : Int) ++ "/XRP",
                       fee := 10, sequence := 7, signed := true, keySequence := 0 } } :=
  validNumber_negative_abs ['3', '5'] (by decide) (by decide) (by decide)

/-- The payment signing step passes the fee through unchanged. -/
theorem signPaymentTransaction_fee (env : Env) (account : Account) (tx out : Payment)
    (h : signPaymentTransaction env account tx = some out) : out.fee = tx.fee := by
  unfold signPaymentTransaction at h
  repeat' split at h
  all_goals injection h
  all_goals subst_vars
  all_goals simp_all

/-- The payment signing step assigns exactly the fetched ledger
sequence. -/
theorem signPaymentTransaction_sequence (env : Env) (account : Account) (tx out : Payment)
    (h : signPaymentTransaction env account tx = some out) :
    env.fetchSequence account.accountId = some out.sequence := by
  unfold signPaymentTransaction at h
  repeat' split at h
  all_goals injection h
  all_goals subst_vars
  all_goals simp_all

/-- The account-settings signing step passes the fee through unchanged. -/
theorem signAccountSetTransaction_fee (env : Env) (account : Account) (tx out : AccountSet)
    (h : signAccountSetTransaction env account tx = some out) : out.fee = tx.fee := by
  unfold signAccountSetTransaction at h
  repeat' split at h
  all_goals injection h
  all_goals subst_vars
  all_goals simp_all

/-- The trust-line signing step passes the fee through unchanged. -/
theorem signTrustSetTransaction_fee (env : Env) (account : Account) (tx out : TrustSet)
    (h : signTrustSetTransaction env account tx = some out) : out.fee = tx.fee := by
  unfold signTrustSetTransaction at h
  repeat' split at h
  all_goals injection h
  all_goals subst_vars
  all_goals simp_all

/-- Every payment built by `createPaymentTransaction` carries fee 10. -/
theorem createPaymentTransaction_fee (env : Env) (sa da amt code iss : String) (tx : Payment)
    (h : createPaymentTransaction env sa da amt code iss = some tx) : tx.fee = 10 := by
  unfold createPaymentTransaction at h
  repeat' split at h
  all_goals injection h
  all_goals subst_vars
  all_goals simp_all

/-- Inversion of a successful `createPayment`: the response is assembled
from the signed payment, which is the built payment passed through the
signing step. -/
theorem createPayment_success_inv (env : Env) (storage : String → Option Account)
    (s d a c i : String) (resp : PaymentResponse)
    (h : createPayment env storage s d a c i = .success resp) :
    ∃ sourceAccount destinationAccount payment signedPayment,
      storage ("accounts/" ++ s) = some sourceAccount ∧
      storage ("accounts/" ++ d) = some destinationAccount ∧
      createPaymentTransaction env sourceAccount.accountId destinationAccount.accountId
        (numString (validNumber a)) c i = some payment ∧
      signPaymentTransaction env sourceAccount payment = some signedPayment ∧
      resp = { sourceAddress := signedPayment.account,
               accountSequence := signedPayment.sequence,
               fee := signedPayment.fee,
               signedTransaction := signedPayment } := by
  rw [createPayment.eq_def] at h
  repeat' split at h
  all_goals injection h
  all_goals subst_vars
  all_goals exact ⟨_, _, _, _, by assumption, by assumption, by assumption, by assumption, rfl⟩

/-- Inversion of a successful `pathAccountSet`. -/
theorem pathAccountSet_success_inv (env : Env) (storage : String → Option Account)
    (n sf cf dom : String) (resp : TxResponse AccountSet)
    (h : pathAccountSet env storage n sf cf dom = .success resp) :
    ∃ sourceAccount setFlag clearFlag signedTx,
      storage ("accounts/" ++ n) = some sourceAccount ∧
      parseFlagField sf = some setFlag ∧
      parseFlagField cf = some clearFlag ∧
      signAccountSetTransaction env sourceAccount
        { account := sourceAccount.accountId, setFlag := setFlag, clearFlag := clearFlag,
          domain := if dom = "" then none else some dom, fee := 10,
          sequence := 0, signed := false, keySequence := 0 } = some signedTx ∧
      resp = { sourceAddress := signedTx.account, accountSequence := signedTx.sequence,
               fee := signedTx.fee, signedTransaction := signedTx } := by
  rw [pathAccountSet.eq_def] at h
  dsimp only at h
  repeat' split at h
  all_goals injection h
  all_goals subst_vars
  all_goals exact ⟨_, _, _, _, by assumption, by assumption, by assumption, by assumption, rfl⟩

/-- Inversion of a successful `pathCreateTrustline`. -/
theorem pathCreateTrustline_success_inv (env : Env) (storage : String → Option Account)
    (n cc iss lim : String) (resp : TxResponse TrustSet)
    (h : pathCreateTrustline env storage n cc iss lim = .success resp) :
    ∃ sourceAccount signedTx,
      storage ("accounts/" ++ n) = some sourceAccount ∧
      signTrustSetTransaction env sourceAccount
        { account := sourceAccount.accountId,
          limitAmount := lim ++ "/" ++ cc ++ "/" ++ iss,
          fee := 10, sequence := 0, signed := false, keySequence := 0 } = some signedTx ∧
      resp = { sourceAddress := signedTx.account, accountSequence := signedTx.sequence,
               fee := signedTx.fee, signedTransaction := signedTx } := by
  rw [pathCreateTrustline.eq_def] at h
  dsimp only at h
  repeat' split at h
  all_goals injection h
  all_goals subst_vars
  all_goals exact ⟨_, _, by assumption, by assumption, rfl⟩

/-- C7: every transaction produced by the pipeline — payment,
account-settings change and trust-line set alike — carries the fixed fee
of 10 drops set by `data.NewNativeValue(int64(10))`, and the operation
responses report that fee; no caller input influences it. -/
theorem fixed_fee_10 :
    (∀ env sa da amt code iss tx,
      createPaymentTransaction env sa da amt code iss = some tx → tx.fee = 10)
    ∧ (∀ env storage s d a c i resp,
        createPayment env storage s d a c i = .success resp →
        resp.fee = 10 ∧ resp.signedTransaction.fee = 10)
    ∧ (∀ env storage n sf cf dom resp,
        pathAccountSet env storage n sf cf dom = .success resp →
        resp.fee = 10 ∧ resp.signedTransaction.fee = 10)
    ∧ (∀ env storage n cc iss lim resp,
        pathCreateTrustline env storage n cc iss lim = .success resp →
        resp.fee = 10 ∧ resp.signedTransaction.fee = 10) := by
  refine ⟨?_, ?_, ?_, ?_⟩
  · intro env sa da amt code iss tx h
    exact createPaymentTransaction_fee env sa da amt code iss tx h
  · intro env storage s d a c i resp h
    obtain ⟨sa, da, payment, sp, hsa, hda, hB, hS, hresp⟩ :=
      createPayment_success_inv env storage s d a c i resp h
    have h1 : sp.fee = payment.fee := signPaymentTransaction_fee env sa payment sp hS
    have h2 : payment.fee = 10 := createPaymentTransaction_fee env _ _ _ _ _ payment hB
    subst hresp
    constructor <;> simp [h1, h2]
  · intro env storage n sf cf dom resp h
    obtain ⟨sa, setFlag, clearFlag, stx, hsa, hsf, hcf, hS, hresp⟩ :=
      pathAccountSet_success_inv env storage n sf cf dom resp h
    have h1 := signAccountSetTransaction_fee env sa _ stx hS
    subst hresp
    constructor <;> simp [h1]
  · intro env storage n cc iss lim resp h
    obtain ⟨sa, stx, hsa, hS, hresp⟩ :=
      pathCreateTrustline_success_inv env storage n cc iss lim resp h
    have h1 := signTrustSetTransaction_fee env sa _ stx hS
    subst hresp
    constructor <;> simp [h1]

/-- The payment response of the healthy scenario with amount 35. -/
def respPay35 : PaymentResponse :=
  { sourceAddress := "rSRC", accountSequence := 7, fee := 10,
    signedTransaction := { account := "rSRC", destination := "rDST", amount := "35/XRP",
                           fee := 10, sequence := 7, signed := true, keySequence := 0 } }

/-- The account-settings response of the healthy scenario with set flag 8
and domain chainfront.io. -/
def respAccountSet : TxResponse AccountSet :=
  { sourceAddress := "rSRC", accountSequence := 7, fee := 10,
    signedTransaction := { account := "rSRC", setFlag := some 8, clearFlag := none,
                           domain := some "chainfront.io", fee := 10, sequence := 7,
                           signed := true, keySequence := 0 } }

/-- The trust-line response of the healthy scenario for currency SRC. -/
def respTrustSet : TxResponse TrustSet :=
  { sourceAddress := "rSRC", accountSequence := 7, fee := 10,
    signedTransaction := { account := "rSRC", limitAmount := "1000000/SRC/rDST",
                           fee := 10, sequence := 7, signed := true, keySequence := 0 } }

/-- C7 witness: the three concrete signed transactions of the test
scenarios all carry fee 10 in both the response and the transaction. -/
theorem fixed_fee_10_check :
    (respPay35.fee = 10 ∧ respPay35.signedTransaction.fee = 10)
    ∧ (respAccountSet.fee = 10 ∧ respAccountSet.signedTransaction.fee = 10)
    ∧ (respTrustSet.fee = 10 ∧ respTrustSet.signedTransaction.fee = 10) :=
  ⟨fixed_fee_10.2.1 envW storageW "src" "dst" "35" "native" "" respPay35 (by decide),
   fixed_fee_10.2.2.1 envW storageW "src" "8" "" "chainfront.io" respAccountSet (by decide),
   fixed_fee_10.2.2.2 envW storageW "src" "SRC" "rDST" "1000000" respTrustSet (by decide)⟩

/-- C8: for every successful payment, the transaction carries exactly the
sequence fetched from the ledger network client for the source account —
no increment, offset or locally cached value — and the response's account
sequence equals that fetched value. -/
theorem account_sequence_from_ledger (env : Env) (storage : String → Option Account)
    (s d a c i : String) (acct : Account) (resp : PaymentResponse)
    (ha : storage ("accounts/" ++ s) = some acct)
    (h : createPayment env storage s d a c i = .success resp) :
    env.fetchSequence acct.accountId = some resp.accountSequence ∧
    resp.signedTransaction.sequence = resp.accountSequence := by
  obtain ⟨sa, da, payment, sp, hsa, hda, hB, hS, hresp⟩ :=
    createPayment_success_inv env storage s d a c i resp h
  rw [ha] at hsa
  injection hsa with hsa
  subst hsa
  have hseq := signPaymentTransaction_sequence env acct payment sp hS
  subst hresp
  exact ⟨by simpa using hseq, by simp⟩

/-- C8 witness: in the healthy environment the fetched sequence 7 is both
the response's account sequence and the signed transaction's sequence. -/
theorem account_sequence_from_ledger_check :
    envW.fetchSequence srcAcct.accountId = some respPay35.accountSequence ∧
    respPay35.signedTransaction.sequence = respPay35.accountSequence :=
  account_sequence_from_ledger envW storageW "src" "dst" "35" "native" "" srcAcct respPay35
    (by decide) (by decide)

/-- C9: for every stored account, `pathReadAccount` returns exactly the
account id, public key, spend limit, whitelist and blacklist fields, and
no response key is the private-key or secret field. -/
theorem readAccount_exact_fields (storage : String → Option Account) (path : String)
    (a : Account) (h : storage path = some a) :
    pathReadAccount storage path =
      some [("accountId", .str a.accountId), ("publicKey", .str a.publicKey),
            ("txSpendLimit", .str a.txSpendLimit), ("whitelist", .strList a.whitelist),
            ("blacklist", .strList a.blacklist)]
    ∧ ∀ kv ∈ [("accountId", FieldValue.str a.accountId),
              ("publicKey", FieldValue.str a.publicKey),
              ("txSpendLimit", FieldValue.str a.txSpendLimit),
              ("whitelist", FieldValue.strList a.whitelist),
              ("blacklist", FieldValue.strList a.blacklist)],
        kv.1 ≠ "privateKey" ∧ kv.1 ≠ "private_key" ∧ kv.1 ≠ "secret" := by
  constructor
  · unfold pathReadAccount
    rw [h]
  · intro kv hkv
    simp only [List.mem_cons, List.not_mem_nil, or_false] at hkv
    rcases hkv with rfl | rfl | rfl | rfl | rfl <;>
      exact ⟨by simp, by simp, by simp⟩

/-- C9 witness: reading the stored source account yields exactly its five
non-sensitive fields. -/
theorem readAccount_exact_fields_check :
    pathReadAccount storageW "accounts/src" =
      some [("accountId", .str srcAcct.accountId), ("publicKey", .str srcAcct.publicKey),
            ("txSpendLimit", .str srcAcct.txSpendLimit),
            ("whitelist", .strList srcAcct.whitelist),
            ("blacklist", .strList srcAcct.blacklist)] :=
  (readAccount_exact_fields storageW "accounts/src" srcAcct (by decide)).1

/-- C10 counterexample: trust-line creation with currency SRC, limit
1000000 and an empty issuer returns the missing-required-field response
for issuer — not an invalid-address error. -/
theorem trustline_empty_issuer_missing_field :
    pathCreateTrustline envW storageW "src" "SRC" "" "1000000" =
      .errMissingField "issuer"
    ∧ pathCreateTrustline envW storageW "src" "SRC" "" "1000000" ≠
        TxResult.errAddress := by decide

/-- C10 (amended): with a non-empty currency code and an empty issuer,
`pathCreateTrustline` returns the missing-required-field response for
issuer, for every environment and storage — so before any account lookup,
network activity or signing. -/
theorem trustline_empty_issuer_before_signing (env : Env) (storage : String → Option Account)
    (name currencyCode limit : String) (hcc : currencyCode ≠ "") :
    pathCreateTrustline env storage name currencyCode "" limit = .errMissingField "issuer" := by
  rw [pathCreateTrustline.eq_def, if_neg hcc]
  simp

/-- C10 witness: the scenario of the specification, with currency SRC and
limit 1000000. -/
theorem trustline_empty_issuer_before_signing_check :
    pathCreateTrustline envW storageW "src" "SRC" "" "1000000" = .errMissingField "issuer" :=
  trustline_empty_issuer_before_signing envW storageW "src" "SRC" "1000000" (by decide)

end VaultXrp
